import Mathlib

/-!
Shallow embedding of the mp2p_icp registration engine and matcher base:
  ICP_Base::align and ICP_Base::prepareMatchingParams (src/ICP_Base.cpp),
  ICP_Horn_MultiCloud::impl_ICP_iteration,
  Matcher_Points_Base::match / transform_local_to_global.
Real numbers (C++ double) are modelled by ℚ; external mrpt collaborators
(the SE(3) Lie logarithm, pose composition, the per-layer nearest-neighbour
search and the std::shuffle engine) are passed in as function parameters,
exactly at the interfaces the engine consumes them.
-/

namespace Mp2pIcp

/-- Termination reasons reachable from ICP_Base::align (IterTermReason). -/
inductive IterTermReason where
  | NoPairings
  | Stalled
  | MaxIterations
deriving DecidableEq

/-- The fields of mp2p_icp::Parameters read by the engine code under src/. -/
structure Parameters where
  maxIterations : Nat
  thresholdDist : ℚ
  thresholdAng : ℚ
  maxPairsPerLayer : Nat
  minAbsStep_trans : ℚ
  minAbsStep_rot : ℚ
  weight_pt2pt_layers : List (String × ℚ)
deriving DecidableEq

/-- ICP_Base::ICP_iteration_result: output of one algorithm-specific
iteration (ICP_Base.h).  new_scale is default initialised to 1.0 and,
in the align loop, never read. -/
structure ICP_iteration_result (Pose : Type) where
  success : Bool
  new_solution : Pose
  new_scale : ℚ
deriving DecidableEq

/-- How the main for-loop of ICP_Base::align was left. -/
inductive ExitKind where
  | noPairings
  | stalledStop
  | exhausted
deriving DecidableEq

/-- Loop exit record: nIterations is the value of result.nIterations when
the for-loop stops; current_solution / current_scale are the fields of
ICP_State at that moment; lastMatch is the pose at which the
algorithm-specific iteration (hence the matcher, hence state.mres) was
last invoked. -/
structure LoopExit (Pose : Type) where
  kind : ExitKind
  nIterations : Nat
  current_solution : Pose
  current_scale : ℚ
  lastMatch : Option Pose
deriving DecidableEq

/-- The main for-loop of ICP_Base::align (ICP_Base.cpp lines 67-107),
with fuel = p.maxIterations - nIterations.  impl is the virtual
impl_ICP_iteration (a function of the current solution; the clouds and
prepared matching parameters are fixed for the whole call).  logNorms
models the two Euclidean norms taken in lines 87-91: for arguments
(current, prev) it returns the pair
(norm of rows 0-2, norm of rows 3-5) of mrpt::poses::Lie::SE<3>::log
(current - prev), i.e. of the log of the incremental pose
prev⁻¹ ∘ current (mrpt is outside this repository). -/
def icpLoop {Pose : Type} (impl : Pose → ICP_iteration_result Pose)
    (logNorms : Pose → Pose → ℚ × ℚ) (p : Parameters) :
    Nat → Nat → Pose → Pose → ℚ → Option Pose → LoopExit Pose
  | 0, n, cur, _prev, scale, lastM => ⟨ExitKind.exhausted, n, cur, scale, lastM⟩
  | remaining + 1, n, cur, prev, scale, _lastM =>
    if (impl cur).success = false then
      ⟨ExitKind.noPairings, n, cur, scale, some cur⟩
    else if |(logNorms (impl cur).new_solution prev).1| < p.minAbsStep_trans ∧
        |(logNorms (impl cur).new_solution prev).2| < p.minAbsStep_rot then
      ⟨ExitKind.stalledStop, n, (impl cur).new_solution, scale, some cur⟩
    else
      icpLoop impl logNorms p remaining (n + 1) (impl cur).new_solution
        (impl cur).new_solution scale (some cur)

/-- mp2p_icp::Results fields populated by align. -/
structure Results (Pose : Type) where
  nIterations : Nat
  terminationReason : Option IterTermReason
  goodness : ℚ
  optimal_tf : Pose
  optimal_scale : ℚ
deriving DecidableEq

/-- The terminationReason value as assigned inside the loop body
(NoPairings / Stalled breaks); none if the loop left it untouched. -/
def reasonOfKind : ExitKind → Option IterTermReason
  | ExitKind.noPairings => some IterTermReason.NoPairings
  | ExitKind.stalledStop => some IterTermReason.Stalled
  | ExitKind.exhausted => none

/-- The terminationReason align returns: the post-loop check of line 109
(if nIterations >= maxIterations, set MaxIterations) applied on top of
whatever the loop break assigned. -/
def alignReason {Pose : Type} (p : Parameters) (ex : LoopExit Pose) :
    Option IterTermReason :=
  if p.maxIterations ≤ ex.nIterations then some IterTermReason.MaxIterations
  else reasonOfKind ex.kind

/-- The goodness align returns (lines 79 and 112-115): 0 from the break
assignment / Results() default, overwritten by the correspondences ratio
of the layer with the largest point count whenever that layer name is
non-empty, evaluated on the mres left by the last matcher run. -/
def alignGoodness {Pose : Type} (correspondencesRatio : Pose → ℚ)
    (layerOfLargestPcIsEmpty : Bool) (ex : LoopExit Pose) : ℚ :=
  if layerOfLargestPcIsEmpty then 0
  else
    match ex.lastMatch with
    | some q => correspondencesRatio q
    | none => 0

/-- ICP_Base::align after the precondition asserts (ICP_Base.cpp lines
56-123).  correspondencesRatio q models
state.mres.at(state.layerOfLargestPc).correspondencesRatio after the
matcher ran at pose q (the mres map is filled by the external matching
query); layerOfLargestPcIsEmpty models state.layerOfLargestPc.empty().
The goodness assigned 0 at the NoPairings break coincides with the
Results() default 0, so a single 0 models both. -/
def align {Pose : Type} (impl : Pose → ICP_iteration_result Pose)
    (logNorms : Pose → Pose → ℚ × ℚ) (correspondencesRatio : Pose → ℚ)
    (layerOfLargestPcIsEmpty : Bool) (p : Parameters) (init_guess : Pose) :
    Results Pose :=
  let ex := icpLoop impl logNorms p p.maxIterations 0 init_guess init_guess 1 none
  ⟨ex.nIterations, alignReason p ex,
    alignGoodness correspondencesRatio layerOfLargestPcIsEmpty ex,
    ex.current_solution, ex.current_scale⟩

/-- Pairings aggregate (mp2p_icp Pairings).  paired_points is the ordered
list of point-point correspondences (global index, local index);
paired_planes abstracts the count of plane-plane pairings;
point_weights is the ordered list of (pairing count, weight) records. -/
structure Pairings where
  paired_points : List (Nat × Nat)
  paired_planes : Nat
  point_weights : List (Nat × ℚ)
deriving DecidableEq

/-- Modelled from the spec: Pairings::empty (the Pairings header is not
under src/): true when no pairing of any kind is present. -/
def Pairings.empty (pr : Pairings) : Bool :=
  pr.paired_points.isEmpty && (pr.paired_planes == 0)

/-- ICP_Horn_MultiCloud::impl_ICP_iteration: run the matchers at the
current solution; if the pairings are empty or have fewer than 3
point-point correspondences, report failure; otherwise solve with the
Horn method (optimal_tf_horn, outside src/, passed as a parameter) and
report success.  poseZero models the default-constructed CPose3D left in
out.new_solution on the failure path; out.new_scale keeps its default
1.0 on every path. -/
def impl_ICP_iteration {Pose : Type} (runMatchersF : Pose → Pairings)
    (optimal_tf_horn : Pairings → Pose) (poseZero : Pose) (cur : Pose) :
    ICP_iteration_result Pose :=
  if (runMatchersF cur).empty = true ∨ (runMatchersF cur).paired_points.length < 3
  then ⟨false, poseZero, 1⟩
  else ⟨true, optimal_tf_horn (runMatchersF cur), 1⟩

/-- Lookup in an association list keyed by layer name; stands for
std::map find / count / at.  The list order models the key order of the
std::map (unique keys). -/
def mapLookup {α : Type} : List (String × α) → String → Option α
  | [], _ => none
  | (k, v) :: rest, key => if key = k then some v else mapLookup rest key

/-- Modelled from the spec: the reserved plane-centroid layer name
pointcloud_t::PT_LAYER_PLANE_CENTROIDS (pointcloud.h is not under src/;
only the name, not its value, matters to the engine logic). -/
def PT_LAYER_PLANE_CENTROIDS : String := "plane_centroids"

/-- One cloud as the engine reads it: named point layers (name, point
count) in std::map key order, plus the number of plane patches. -/
structure pointcloud_t where
  point_layers : List (String × Nat)
  planes : Nat
deriving DecidableEq

/-- The mrpt::maps::TMatchingParams fields written by
ICP_Base::prepareMatchingParams. -/
structure TMatchingParams where
  maxDistForCorrespondence : ℚ
  maxAngularDistForCorrespondence : ℚ
  onlyKeepTheClosest : Bool
  onlyUniqueRobust : Bool
  decimation_other_map_points : Nat
  offset_other_map_points : Nat
deriving DecidableEq

/-- Matching parameters assigned to an ordinary (non plane-centroid)
point layer of the given size (ICP_Base.cpp lines 155-170).  The C++
stride is std::max(1U, unsigned(size / (1.0 * maxPairsPerLayer))): a
double division truncated toward zero, i.e. floor division. -/
def pointLayerParams (p : Parameters) (layerSize : Nat) : TMatchingParams :=
  { maxDistForCorrespondence := p.thresholdDist
    maxAngularDistForCorrespondence := p.thresholdAng
    onlyKeepTheClosest := true
    onlyUniqueRobust := false
    decimation_other_map_points := max 1 (layerSize / p.maxPairsPerLayer)
    offset_other_map_points := 0 }

/-- Matching parameters assigned to the reserved plane-centroid layer
(ICP_Base.cpp lines 172-183); the fields the branch does not assign keep
the default-constructed values dflt. -/
def planeLayerParams (dflt : TMatchingParams) (p : Parameters) : TMatchingParams :=
  { dflt with
    maxDistForCorrespondence := p.thresholdDist + 2
    maxAngularDistForCorrespondence := 0
    onlyKeepTheClosest := true
    decimation_other_map_points := 1 }

/-- ICP_Base::prepareMatchingParams (ICP_Base.cpp lines 126-187):
walks the layers of the first cloud accumulating
(pointCountLargestPc, layerOfLargestPc); returns state.mps as an
association list together with the final state.layerOfLargestPc.
Note state.mps[name] default-inserts an entry even for a layer that the
weight configuration then skips. -/
def prepareMatchingParams (dflt : TMatchingParams) (p : Parameters) :
    List (String × Nat) → Nat → String → List (String × TMatchingParams) × String
  | [], _, layerOfLargestPc => ([], layerOfLargestPc)
  | (name, size) :: rest, pointCountLargestPc, layerOfLargestPc =>
    if name = PT_LAYER_PLANE_CENTROIDS then
      let tail := prepareMatchingParams dflt p rest pointCountLargestPc layerOfLargestPc
      ((name, planeLayerParams dflt p) :: tail.1, tail.2)
    else if (mapLookup p.weight_pt2pt_layers name).isNone then
      let tail := prepareMatchingParams dflt p rest pointCountLargestPc layerOfLargestPc
      ((name, dflt) :: tail.1, tail.2)
    else
      let acc : Nat × String :=
        if pointCountLargestPc < size then (size, name)
        else (pointCountLargestPc, layerOfLargestPc)
      let tail := prepareMatchingParams dflt p rest acc.1 acc.2
      ((name, pointLayerParams p size) :: tail.1, tail.2)

/-- The default-constructed std::string in ICP_State.layerOfLargestPc. -/
def emptyName : String := ""

/-- The fatal precondition failures align can raise before its loop
(MRPT ASSERT_ macros and the std::map::at lookup of line 51). -/
inductive FatalError where
  | layerCountMismatch
  | emptyClouds
  | missingLayer (name : String)
  | noPoints1
  | noPoints2
deriving DecidableEq

/-- The point-counting loop of ICP_Base::align lines 44-52: layers absent
from the weight configuration are skipped; pcs2.point_layers.at(name)
throws (modelled as missingLayer) when pcs2 lacks a layer included from
pcs1. -/
def countIncludedPoints (weights : List (String × ℚ))
    (pc2layers : List (String × Nat)) :
    List (String × Nat) → Except FatalError (Nat × Nat)
  | [] => Except.ok (0, 0)
  | (name, size) :: rest =>
    if (mapLookup weights name).isNone then
      countIncludedPoints weights pc2layers rest
    else
      match mapLookup pc2layers name with
      | none => Except.error (FatalError.missingLayer name)
      | some size2 =>
        match countIncludedPoints weights pc2layers rest with
        | Except.error e => Except.error e
        | Except.ok (c1, c2) => Except.ok (c1 + size, c2 + size2)

/-- ICP_Base::align from entry to return (ICP_Base.cpp lines 23-124):
the precondition checks of lines 35-54, then prepareMatchingParams once,
then the iteration loop.  impl and ratioF receive the prepared
state.mps and state.layerOfLargestPc, mirroring that the
algorithm-specific iteration and the mres ratios depend on them. -/
def align_full {Pose : Type} (dflt : TMatchingParams)
    (impl : List (String × TMatchingParams) → String → Pose → ICP_iteration_result Pose)
    (logNorms : Pose → Pose → ℚ × ℚ)
    (ratioF : List (String × TMatchingParams) → String → Pose → ℚ)
    (p : Parameters) (pcs1 pcs2 : pointcloud_t) (init_guess : Pose) :
    Except FatalError (Results Pose) :=
  if pcs1.point_layers.length ≠ pcs2.point_layers.length then
    Except.error FatalError.layerCountMismatch
  else if ¬(pcs1.point_layers ≠ [] ∨ (pcs1.planes ≠ 0 ∧ pcs2.planes ≠ 0)) then
    Except.error FatalError.emptyClouds
  else
    match countIncludedPoints p.weight_pt2pt_layers pcs2.point_layers
        pcs1.point_layers with
    | Except.error e => Except.error e
    | Except.ok (pointcount1, pointcount2) =>
      if ¬(0 < pointcount1 ∨ pcs1.planes ≠ 0) then
        Except.error FatalError.noPoints1
      else if ¬(0 < pointcount2 ∨ pcs2.planes ≠ 0) then
        Except.error FatalError.noPoints2
      else
        let prep := prepareMatchingParams dflt p pcs1.point_layers 0 emptyName
        Except.ok (align (impl prep.1 prep.2) logNorms (ratioF prep.1 prep.2)
          prep.2.isEmpty p init_guess)

/-- Matcher_Points_Base::match, inner loop over the global cloud layers
(Matcher_Points_Base.cpp lines 29-59).  implMatchOneLayer stands for the
virtual per-layer nearest-neighbour search (external; it appends zero or
more point-point pairings for the named layer at the given pose). -/
def matchGo {Pose : Type} (implMatchOneLayer : String → Pose → List (Nat × Nat))
    (weights : List (String × ℚ)) (pcLocal : pointcloud_t) (localPose : Pose) :
    List (String × Nat) → Pairings → Pairings
  | [], out => out
  | (name, _) :: rest, out =>
    if weights ≠ [] ∧ (mapLookup weights name).isNone then
      matchGo implMatchOneLayer weights pcLocal localPose rest out
    else
      match mapLookup pcLocal.point_layers name with
      | none => matchGo implMatchOneLayer weights pcLocal localPose rest out
      | some _ =>
        let added := implMatchOneLayer name localPose
        let out2 : Pairings :=
          { out with paired_points := out.paired_points ++ added }
        let out3 : Pairings :=
          if weights ≠ [] ∧ out2.paired_points.length ≠ out.paired_points.length
          then
            { out2 with
              point_weights := out2.point_weights ++
                [(out2.paired_points.length - out.paired_points.length,
                  (mapLookup weights name).getD 0)] }
          else out2
        matchGo implMatchOneLayer weights pcLocal localPose rest out3

/-- Matcher_Points_Base::match: reset the output Pairings, then process
every layer of the global cloud in order. -/
def matchPairings {Pose : Type}
    (implMatchOneLayer : String → Pose → List (Nat × Nat))
    (weights : List (String × ℚ)) (pcGlobal pcLocal : pointcloud_t)
    (localPose : Pose) : Pairings :=
  matchGo implMatchOneLayer weights pcLocal localPose pcGlobal.point_layers
    ⟨[], 0, []⟩

/-- Spec-side description of the weight records (claim C7 wording): one
(count, weight) record per processed layer that contributed at least one
pairing, recorded in layer-processing order, with the count being exactly
the pairings that layer just added, provided a non-empty weight
configuration exists. -/
def point_weights_spec {Pose : Type}
    (implMatchOneLayer : String → Pose → List (Nat × Nat))
    (weights : List (String × ℚ)) (pcLocal : pointcloud_t) (localPose : Pose) :
    List (String × Nat) → List (Nat × ℚ)
  | [] => []
  | (name, _) :: rest =>
    if weights ≠ [] ∧ (mapLookup weights name).isNone then
      point_weights_spec implMatchOneLayer weights pcLocal localPose rest
    else
      match mapLookup pcLocal.point_layers name with
      | none => point_weights_spec implMatchOneLayer weights pcLocal localPose rest
      | some _ =>
        (if weights ≠ [] ∧ (implMatchOneLayer name localPose).length ≠ 0 then
          [((implMatchOneLayer name localPose).length,
            (mapLookup weights name).getD 0)]
        else []) ++
          point_weights_spec implMatchOneLayer weights pcLocal localPose rest

/-- The point-point pairings contributed by layered matching, layer by
layer in processing order (companion of point_weights_spec). -/
def paired_points_spec {Pose : Type}
    (implMatchOneLayer : String → Pose → List (Nat × Nat))
    (weights : List (String × ℚ)) (pcLocal : pointcloud_t) (localPose : Pose) :
    List (String × Nat) → List (Nat × Nat)
  | [] => []
  | (name, _) :: rest =>
    if weights ≠ [] ∧ (mapLookup weights name).isNone then
      paired_points_spec implMatchOneLayer weights pcLocal localPose rest
    else
      match mapLookup pcLocal.point_layers name with
      | none => paired_points_spec implMatchOneLayer weights pcLocal localPose rest
      | some _ =>
        implMatchOneLayer name localPose ++
          paired_points_spec implMatchOneLayer weights pcLocal localPose rest

/-- A 3D point (the x, y, z float coordinates of one local point). -/
abbrev Point : Type := ℚ × ℚ × ℚ

/-- Output of Matcher_Points_Base::transform_local_to_global: the
transformed coordinate buffers and, when subsampling happened, the
selected original indices in shuffled order.  The incremental bounding
box (localMin / localMax) is not modelled: no claim mentions it. -/
structure TransformedLocalPointCloud where
  x_locals : List ℚ
  y_locals : List ℚ
  z_locals : List ℚ
  idxs : Option (List Nat)
deriving DecidableEq

/-- Matcher_Points_Base::transform_local_to_global
(Matcher_Points_Base.cpp lines 78-149).  localPose models
CPose3D::composePoint for the candidate pose; shuffle models std::shuffle
driven by std::default_random_engine(seed) — a deterministic function of
the seed and the input sequence on a fixed platform; timeSeed is the
value system_clock time since epoch would yield, read only when
localPointsSampleSeed is 0.  The C++ seed is truncated from uint64_t to
unsigned int, hence the mod 2^32.  Note the subsampling branch builds
its index vector with r.idxs.emplace(maxLocalPoints) followed by iota,
so the shuffled sequence is a permutation of [0, maxLocalPoints), not of
[0, nLocalPoints). -/
def transform_local_to_global (shuffle : Nat → List Nat → List Nat)
    (timeSeed : Nat) (pcLocal : List Point) (localPose : Point → Point)
    (maxLocalPoints : Nat) (localPointsSampleSeed : Nat) :
    TransformedLocalPointCloud :=
  let nLocalPoints := pcLocal.length
  if maxLocalPoints = 0 ∨ nLocalPoints ≤ maxLocalPoints then
    let pts := pcLocal.map localPose
    ⟨pts.map (fun q => q.1), pts.map (fun q => q.2.1),
      pts.map (fun q => q.2.2), none⟩
  else
    let seed :=
      (if localPointsSampleSeed ≠ 0 then localPointsSampleSeed else timeSeed)
        % 4294967296
    let idxs := shuffle seed (List.range maxLocalPoints)
    let pts := idxs.map (fun i => localPose (pcLocal.getD i ((0 : ℚ), 0, 0)))
    ⟨pts.map (fun q => q.1), pts.map (fun q => q.2.1),
      pts.map (fun q => q.2.2), some idxs⟩

/-- Ceiling division, used to state what the spec asserts the stride is. -/
def ceilDiv (n k : Nat) : Nat := (n + k - 1) / k

/-- Modelled from the spec: stride-based decimation examines every
stride-th candidate point (indices 0, s, 2s, ...), i.e. ceil(n/s) probes
for a layer of n points (the decimated determineMatching query lives in
mrpt, outside src/). -/
def probeCount (n stride : Nat) : Nat := ceilDiv n stride

/-! Concrete instantiations of the abstract collaborators, used by the
witness and counterexample theorems below. -/

/-- A per-iteration implementation that always succeeds and moves the
(1-dimensional stand-in) pose by one unit. -/
def implW : ℚ → ICP_iteration_result ℚ := fun q => ⟨true, q + 1, 1⟩

/-- A per-iteration implementation that always succeeds and keeps the
pose unchanged (the loop then stalls immediately). -/
def implFix : ℚ → ICP_iteration_result ℚ := fun q => ⟨true, q, 1⟩

/-- Log-norm stand-in: translation block norm = distance between the two
stand-in poses, rotation block norm = 0. -/
def logNormsW : ℚ → ℚ → ℚ × ℚ := fun a b => (a - b, 0)

/-- A correspondences ratio oracle returning 7 everywhere. -/
def ratioW : ℚ → ℚ := fun _ => 7

/-- A correspondences ratio oracle returning 1 everywhere (every point
of the largest layer found a correspondence). -/
def ratioOne : ℚ → ℚ := fun _ => 1

/-- Concrete engine parameters: 3 iterations, integral thresholds. -/
def pW : Parameters := ⟨3, 1, 1, 10, 1, 1, []⟩

/-- Concrete engine parameters: a single iteration. -/
def pC3 : Parameters := ⟨1, 1, 1, 10, 1, 1, []⟩

/-- A matcher oracle that never finds any pairing. -/
def rmFail : ℚ → Pairings := fun _ => ⟨[], 0, []⟩

/-- A solver stand-in (never reached in the failing runs). -/
def solveW : Pairings → ℚ := fun _ => 0

/-- The identity shuffle: a valid permutation for every seed. -/
def shuffleId : Nat → List Nat → List Nat := fun _ l => l

/-- A default-constructed TMatchingParams stand-in (arbitrary values:
the claims only constrain the fields prepareMatchingParams assigns). -/
def mpDefaultW : TMatchingParams := ⟨3, 7, false, false, 1, 0⟩

/-- Layer name used in concrete runs. -/
def layerA : String := "a"

/-- A second layer name, distinct from layerA. -/
def layerB : String := "b"

/-- Parameters with maxPairsPerLayer = 2 and layerA included with
weight 1 (decimation counterexample). -/
def pC5 : Parameters := ⟨10, 1, 1, 2, 1, 1, [(layerA, 1)]⟩

/-- A cloud with one 5-point layer named layerA and one plane. -/
def pcA : pointcloud_t := ⟨[(layerA, 5)], 1⟩

/-- A cloud with one 5-point layer named layerB and one plane. -/
def pcB : pointcloud_t := ⟨[(layerB, 5)], 1⟩

/-- A full-align per-iteration implementation ignoring the prepared
parameters and keeping the pose unchanged. -/
def implC6 : List (String × TMatchingParams) → String → ℚ →
    ICP_iteration_result ℚ := fun _ _ q => ⟨true, q, 1⟩

/-- A full-align ratio oracle returning 0. -/
def ratioC6 : List (String × TMatchingParams) → String → ℚ → ℚ :=
  fun _ _ _ => 0

/-- Log-norm stand-in that reports no motion at all. -/
def logNormsW0 : ℚ → ℚ → ℚ × ℚ := fun _ _ => (0, 0)

/-- A per-layer matcher that returns exactly one pairing for any layer. -/
def implOnePair : String → Unit → List (Nat × Nat) := fun _ _ => [(0, 0)]

/-- A cloud with a single 1-point layer named layerA and no planes. -/
def pcG : pointcloud_t := ⟨[(layerA, 1)], 0⟩

/-! Helper lemmas about the loop. -/

/-- state.current_scale is never written inside the loop: every exit
carries the scale the loop was entered with. -/
theorem icpLoop_scale_eq {Pose : Type} (impl : Pose → ICP_iteration_result Pose)
    (logNorms : Pose → Pose → ℚ × ℚ) (p : Parameters) :
    ∀ (remaining n : Nat) (cur prev : Pose) (scale : ℚ) (lastM : Option Pose),
      (icpLoop impl logNorms p remaining n cur prev scale lastM).current_scale
        = scale := by
  intro remaining
  induction remaining with
  | zero => intro n cur prev scale lastM; rfl
  | succ r ih =>
    intro n cur prev scale lastM
    rw [icpLoop]
    split
    · rfl
    · split
      · rfl
      · exact ih (n + 1) (impl cur).new_solution (impl cur).new_solution scale
          (some cur)

/-- The iteration counter of a loop exit: a break happens at some
iteration index in [n, n + remaining), exhaustion at exactly
n + remaining. -/
theorem icpLoop_counter {Pose : Type} (impl : Pose → ICP_iteration_result Pose)
    (logNorms : Pose → Pose → ℚ × ℚ) (p : Parameters) :
    ∀ (remaining n : Nat) (cur prev : Pose) (scale : ℚ) (lastM : Option Pose),
      ((icpLoop impl logNorms p remaining n cur prev scale lastM).kind
          = ExitKind.exhausted →
        (icpLoop impl logNorms p remaining n cur prev scale lastM).nIterations
          = n + remaining) ∧
      ((icpLoop impl logNorms p remaining n cur prev scale lastM).kind
          ≠ ExitKind.exhausted →
        n ≤ (icpLoop impl logNorms p remaining n cur prev scale lastM).nIterations
        ∧ (icpLoop impl logNorms p remaining n cur prev scale
            lastM).nIterations < n + remaining) := by
  intro remaining
  induction remaining with
  | zero =>
    intro n cur prev scale lastM
    constructor
    · intro _; rfl
    · intro h; exact absurd rfl h
  | succ r ih =>
    intro n cur prev scale lastM
    rw [icpLoop]
    split
    · constructor
      · intro h; exact absurd h (by simp)
      · intro _
        refine ⟨le_refl n, ?_⟩
        show n < n + (r + 1)
        omega
    · split
      · constructor
        · intro h; exact absurd h (by simp)
        · intro _
          refine ⟨le_refl n, ?_⟩
          show n < n + (r + 1)
          omega
      · have h2 := ih (n + 1) (impl cur).new_solution (impl cur).new_solution
          scale (some cur)
        constructor
        · intro h; rw [h2.1 h]; omega
        · intro h
          have h3 := h2.2 h
          exact ⟨by omega, by omega⟩

/-- A NoPairings exit records the pose the failing iteration matched at:
lastMatch = some current_solution. -/
theorem icpLoop_noPairings_lastMatch {Pose : Type}
    (impl : Pose → ICP_iteration_result Pose)
    (logNorms : Pose → Pose → ℚ × ℚ) (p : Parameters) :
    ∀ (remaining n : Nat) (cur prev : Pose) (scale : ℚ) (lastM : Option Pose),
      (icpLoop impl logNorms p remaining n cur prev scale lastM).kind
          = ExitKind.noPairings →
        (icpLoop impl logNorms p remaining n cur prev scale lastM).lastMatch
          = some ((icpLoop impl logNorms p remaining n cur prev scale
              lastM).current_solution) := by
  intro remaining
  induction remaining with
  | zero =>
    intro n cur prev scale lastM h
    exact absurd h (by simp [icpLoop])
  | succ r ih =>
    intro n cur prev scale lastM
    rw [icpLoop]
    split
    · intro _; rfl
    · split
      · intro h; exact absurd h (by simp)
      · exact ih (n + 1) (impl cur).new_solution (impl cur).new_solution scale
          (some cur)

/-- How the returned terminationReason relates to the kind of loop exit:
a break is never overwritten by the post-loop MaxIterations check (its
iteration index is below maxIterations), exhaustion always triggers it,
and some reason is always set. -/
theorem align_termination_cases {Pose : Type}
    (impl : Pose → ICP_iteration_result Pose)
    (logNorms : Pose → Pose → ℚ × ℚ) (ratio : Pose → ℚ) (lempty : Bool)
    (p : Parameters) (init_guess : Pose) :
    ((align impl logNorms ratio lempty p init_guess).terminationReason
        = some IterTermReason.Stalled ↔
      (icpLoop impl logNorms p p.maxIterations 0 init_guess init_guess 1
          none).kind = ExitKind.stalledStop) ∧
    ((align impl logNorms ratio lempty p init_guess).terminationReason
        = some IterTermReason.NoPairings ↔
      (icpLoop impl logNorms p p.maxIterations 0 init_guess init_guess 1
          none).kind = ExitKind.noPairings) ∧
    ((align impl logNorms ratio lempty p init_guess).terminationReason
        = some IterTermReason.MaxIterations ↔
      (icpLoop impl logNorms p p.maxIterations 0 init_guess init_guess 1
          none).kind = ExitKind.exhausted) ∧
    (∃ r, (align impl logNorms ratio lempty p init_guess).terminationReason
        = some r) ∧
    ((icpLoop impl logNorms p p.maxIterations 0 init_guess init_guess 1
        none).kind = ExitKind.exhausted →
      (align impl logNorms ratio lempty p init_guess).nIterations
        = p.maxIterations) := by
  have hcnt := icpLoop_counter impl logNorms p p.maxIterations 0 init_guess
    init_guess 1 none
  have hre : (align impl logNorms ratio lempty p init_guess).terminationReason
      = alignReason p (icpLoop impl logNorms p p.maxIterations 0 init_guess
          init_guess 1 none) := rfl
  have hni : (align impl logNorms ratio lempty p init_guess).nIterations
      = (icpLoop impl logNorms p p.maxIterations 0 init_guess init_guess 1
          none).nIterations := rfl
  rw [hre, hni]
  cases hk : (icpLoop impl logNorms p p.maxIterations 0 init_guess init_guess 1
      none).kind with
  | noPairings =>
    have hb := hcnt.2 (by rw [hk]; simp)
    have hlt : ¬(p.maxIterations ≤ (icpLoop impl logNorms p p.maxIterations 0
        init_guess init_guess 1 none).nIterations) := by omega
    simp only [alignReason, hk, if_neg hlt, reasonOfKind]
    exact ⟨by simp, by simp, by simp, ⟨IterTermReason.NoPairings, rfl⟩,
      fun h => absurd h (by simp)⟩
  | stalledStop =>
    have hb := hcnt.2 (by rw [hk]; simp)
    have hlt : ¬(p.maxIterations ≤ (icpLoop impl logNorms p p.maxIterations 0
        init_guess init_guess 1 none).nIterations) := by omega
    simp only [alignReason, hk, if_neg hlt, reasonOfKind]
    exact ⟨by simp, by simp, by simp, ⟨IterTermReason.Stalled, rfl⟩,
      fun h => absurd h (by simp)⟩
  | exhausted =>
    have hb := hcnt.1 hk
    have hge : p.maxIterations ≤ (icpLoop impl logNorms p p.maxIterations 0
        init_guess init_guess 1 none).nIterations := by omega
    simp only [alignReason, hk, if_pos hge, reasonOfKind]
    exact ⟨by simp, by simp, by simp, ⟨IterTermReason.MaxIterations, rfl⟩,
      fun _ => by omega⟩

/-! Claim theorems for the registration engine. -/

/-- Claim C1: in a loop iteration whose solver step succeeds, the loop
stops with the Stalled break at that very iteration exactly when the
translation-block norm and the rotation-block norm of the SE(3)
Lie-algebra logarithm of the incremental pose (the previous solution
inverse-composed with the candidate, as computed by logNorms) are both
strictly below minAbsStep_trans resp. minAbsStep_rot; otherwise the
candidate is adopted as the current (and new previous) solution and
iteration continues; and align reports reason Stalled exactly when its
loop stopped with the Stalled break. -/
theorem align_stalled_iff {Pose : Type} (impl : Pose → ICP_iteration_result Pose)
    (logNorms : Pose → Pose → ℚ × ℚ) (correspondencesRatio : Pose → ℚ)
    (lempty : Bool) (p : Parameters) (remaining n : Nat)
    (cur prev init_guess : Pose) (scale : ℚ) (lastM : Option Pose)
    (hsucc : (impl cur).success = true) :
    (icpLoop impl logNorms p (remaining + 1) n cur prev scale lastM =
        ⟨ExitKind.stalledStop, n, (impl cur).new_solution, scale, some cur⟩ ↔
      |(logNorms (impl cur).new_solution prev).1| < p.minAbsStep_trans ∧
        |(logNorms (impl cur).new_solution prev).2| < p.minAbsStep_rot) ∧
    (¬(|(logNorms (impl cur).new_solution prev).1| < p.minAbsStep_trans ∧
        |(logNorms (impl cur).new_solution prev).2| < p.minAbsStep_rot) →
      icpLoop impl logNorms p (remaining + 1) n cur prev scale lastM =
        icpLoop impl logNorms p remaining (n + 1) (impl cur).new_solution
          (impl cur).new_solution scale (some cur)) ∧
    ((align impl logNorms correspondencesRatio lempty p
        init_guess).terminationReason = some IterTermReason.Stalled ↔
      (icpLoop impl logNorms p p.maxIterations 0 init_guess init_guess 1
          none).kind = ExitKind.stalledStop) := by
  have hne : ¬((impl cur).success = false) := by simp [hsucc]
  refine ⟨?_, ?_, (align_termination_cases impl logNorms correspondencesRatio
    lempty p init_guess).1⟩
  · rw [icpLoop, if_neg hne]
    by_cases hc : |(logNorms (impl cur).new_solution prev).1|
        < p.minAbsStep_trans ∧
        |(logNorms (impl cur).new_solution prev).2| < p.minAbsStep_rot
    · rw [if_pos hc]; exact iff_of_true rfl hc
    · rw [if_neg hc]
      refine iff_of_false ?_ hc
      intro heq
      have hk : (icpLoop impl logNorms p remaining (n + 1)
          (impl cur).new_solution (impl cur).new_solution scale
          (some cur)).kind = ExitKind.stalledStop := by rw [heq]
      have hn2 : (icpLoop impl logNorms p remaining (n + 1)
          (impl cur).new_solution (impl cur).new_solution scale
          (some cur)).nIterations = n := by rw [heq]
      have hb := (icpLoop_counter impl logNorms p remaining (n + 1)
        (impl cur).new_solution (impl cur).new_solution scale (some cur)).2
        (by rw [hk]; simp)
      omega
  · intro hc
    rw [icpLoop, if_neg hne, if_neg hc]

/-- Claim C2: given maxIterations > 0, align always returns exactly one
termination reason (the single Option field is some r, never none), and
that reason is MaxIterations exactly when the loop ran out of its
iteration budget without an earlier break, in which case the returned
iteration count equals maxIterations. -/
theorem align_termination_classification {Pose : Type}
    (impl : Pose → ICP_iteration_result Pose)
    (logNorms : Pose → Pose → ℚ × ℚ) (ratio : Pose → ℚ) (lempty : Bool)
    (p : Parameters) (init_guess : Pose) (_hmax : 0 < p.maxIterations) :
    (∃ r, (align impl logNorms ratio lempty p init_guess).terminationReason
        = some r) ∧
    ((align impl logNorms ratio lempty p init_guess).terminationReason
        = some IterTermReason.MaxIterations ↔
      (icpLoop impl logNorms p p.maxIterations 0 init_guess init_guess 1
          none).kind = ExitKind.exhausted) ∧
    ((icpLoop impl logNorms p p.maxIterations 0 init_guess init_guess 1
        none).kind = ExitKind.exhausted →
      (align impl logNorms ratio lempty p init_guess).nIterations
        = p.maxIterations) := by
  have h := align_termination_cases impl logNorms ratio lempty p init_guess
  exact ⟨h.2.2.2.1, h.2.2.1, h.2.2.2.2⟩

/-- Claim C3 (amended): when an iteration of the Horn implementation
finds fewer than 3 point-point pairings (which also covers an empty
pairing set, and models a solver-reported failure via success = false),
the loop breaks with the NoPairings exit at that iteration; align then
reports reason NoPairings, but the goodness value 0 assigned at the
break is returned only when layerOfLargestPc is empty — otherwise the
post-loop overwrite of ICP_Base.cpp lines 112-115 replaces it by the
largest layer's correspondences ratio from the final matcher run. -/
theorem align_noPairings_outcome {Pose : Type} (runMatchersF : Pose → Pairings)
    (optimal_tf_horn : Pairings → Pose) (poseZero : Pose)
    (logNorms : Pose → Pose → ℚ × ℚ) (ratio : Pose → ℚ) (lempty : Bool)
    (p : Parameters) (remaining n : Nat) (cur prev init_guess : Pose)
    (scale : ℚ) (lastM : Option Pose)
    (hfew : (runMatchersF cur).paired_points.length < 3) :
    icpLoop (impl_ICP_iteration runMatchersF optimal_tf_horn poseZero) logNorms
        p (remaining + 1) n cur prev scale lastM
      = ⟨ExitKind.noPairings, n, cur, scale, some cur⟩ ∧
    ((icpLoop (impl_ICP_iteration runMatchersF optimal_tf_horn poseZero)
        logNorms p p.maxIterations 0 init_guess init_guess 1 none).kind
          = ExitKind.noPairings →
      (align (impl_ICP_iteration runMatchersF optimal_tf_horn poseZero)
          logNorms ratio lempty p init_guess).terminationReason
        = some IterTermReason.NoPairings ∧
      (align (impl_ICP_iteration runMatchersF optimal_tf_horn poseZero)
          logNorms ratio lempty p init_guess).goodness
        = (if lempty then 0
           else ratio ((icpLoop (impl_ICP_iteration runMatchersF
               optimal_tf_horn poseZero) logNorms p p.maxIterations 0
               init_guess init_guess 1 none).current_solution))) := by
  have hfail : (impl_ICP_iteration runMatchersF optimal_tf_horn poseZero
      cur).success = false := by
    rw [impl_ICP_iteration, if_pos (Or.inr hfew)]
  constructor
  · rw [icpLoop, if_pos hfail]
  · intro hk
    refine ⟨(align_termination_cases (impl_ICP_iteration runMatchersF
      optimal_tf_horn poseZero) logNorms ratio lempty p init_guess).2.1.mpr hk,
      ?_⟩
    have hg : (align (impl_ICP_iteration runMatchersF optimal_tf_horn poseZero)
        logNorms ratio lempty p init_guess).goodness
        = alignGoodness ratio lempty (icpLoop (impl_ICP_iteration runMatchersF
            optimal_tf_horn poseZero) logNorms p p.maxIterations 0 init_guess
            init_guess 1 none) := rfl
    have hlm := icpLoop_noPairings_lastMatch (impl_ICP_iteration runMatchersF
      optimal_tf_horn poseZero) logNorms p p.maxIterations 0 init_guess
      init_guess 1 none hk
    rw [hg, alignGoodness, hlm]

/-- Claim C10: the scale is initialised to 1.0 with ICP_State and the
loop only ever adopts iter_result.new_solution, never
iter_result.new_scale, so the optimal_scale field of every Results value
align returns equals exactly 1. -/
theorem align_optimal_scale_one {Pose : Type}
    (impl : Pose → ICP_iteration_result Pose)
    (logNorms : Pose → Pose → ℚ × ℚ) (ratio : Pose → ℚ) (lempty : Bool)
    (p : Parameters) (init_guess : Pose) :
    (align impl logNorms ratio lempty p init_guess).optimal_scale = 1 := by
  have h : (align impl logNorms ratio lempty p init_guess).optimal_scale
      = (icpLoop impl logNorms p p.maxIterations 0 init_guess init_guess 1
          none).current_scale := rfl
  rw [h, icpLoop_scale_eq]

/-- Witness for C1 at a concrete run: one remaining iteration, stand-in
pose 0, implW moving the pose by 1 against thresholds 1/10. -/
theorem align_stalled_iff_witness :
    icpLoop implW logNormsW pW (0 + 1) 0 (0 : ℚ) 0 1 none =
        ⟨ExitKind.stalledStop, 0, (implW 0).new_solution, 1, some 0⟩ ↔
      |(logNormsW (implW 0).new_solution 0).1| < pW.minAbsStep_trans ∧
        |(logNormsW (implW 0).new_solution 0).2| < pW.minAbsStep_rot :=
  (align_stalled_iff implW logNormsW ratioW false pW 0 0 0 0 0 1 none
    (by decide)).1

/-- Witness for C2 at a concrete run. -/
theorem align_termination_classification_witness :
    ∃ r, (align implW logNormsW ratioW false pW 0).terminationReason
      = some r :=
  (align_termination_classification implW logNormsW ratioW false pW 0
    (by decide)).1

/-- Witness for C3 at a concrete run: the matcher finds no pairings, the
first iteration breaks with NoPairings. -/
theorem align_noPairings_outcome_witness :
    icpLoop (impl_ICP_iteration rmFail solveW 0) logNormsW pC3 (0 + 1) 0
        (0 : ℚ) 0 1 none = ⟨ExitKind.noPairings, 0, 0, 1, some 0⟩ :=
  (align_noPairings_outcome rmFail solveW 0 logNormsW ratioOne false pC3 0 0 0
    0 0 1 none (by decide)).1

/-- Counterexample to C3 as stated: with a non-empty largest layer whose
final correspondences ratio is 1, align terminates with NoPairings but
returns goodness 1, not 0. -/
theorem align_noPairings_goodness_counterexample :
    (align (impl_ICP_iteration rmFail solveW 0) logNormsW ratioOne false pC3
        0).terminationReason = some IterTermReason.NoPairings ∧
    (align (impl_ICP_iteration rmFail solveW 0) logNormsW ratioOne false pC3
        0).goodness = 1 := by
  exact ⟨rfl, rfl⟩

/-- Claim C4 (code-bug evidence): on a local cloud of 2 points with
maxLocalPoints = 1 and the non-zero seed 7, the subsampling branch
builds its index vector as iota over [0, maxLocalPoints) = [0], so for
every shuffle that permutes its input the selected index list is exactly
[0] no matter what the seed or time value is: original index 1 can never
be selected, whereas the spec asserts a permutation of [0, localCount)
from which every index can be drawn. -/
theorem transform_local_to_global_selects_only_low_indices
    (shuffle : Nat → List Nat → List Nat)
    (hperm : ∀ s l, List.Perm (shuffle s l) l) (timeSeed : Nat) :
    (transform_local_to_global shuffle timeSeed
        [((0 : ℚ), 0, 0), ((1 : ℚ), 1, 1)] id 1 7).idxs = some [0] := by
  have hs : shuffle 7 (List.range 1) = [0] := by
    have h := hperm 7 (List.range 1)
    rw [show List.range 1 = [0] from rfl] at h
    rw [show List.range 1 = [0] from rfl]
    exact List.perm_singleton.mp h
  simp [transform_local_to_global, hs]

/-- Witness for C4 with the identity shuffle. -/
theorem transform_local_to_global_selects_only_low_indices_witness :
    (transform_local_to_global shuffleId 0 [((0 : ℚ), 0, 0), ((1 : ℚ), 1, 1)]
        id 1 7).idxs = some [0] :=
  transform_local_to_global_selects_only_low_indices shuffleId
    (fun _ l => List.Perm.refl l) 0

/-- Claim C9: with a fixed non-zero seed, two runs of
transform_local_to_global on identical inputs agree completely
(selected indices and transformed coordinates), whatever time values
the two runs would otherwise have drawn; the time oracle is read only
when the seed is 0. -/
theorem transform_local_to_global_deterministic
    (shuffle : Nat → List Nat → List Nat) (timeSeed1 timeSeed2 : Nat)
    (pcLocal : List Point) (localPose : Point → Point)
    (maxLocalPoints : Nat) (seed : Nat) (hseed : seed ≠ 0) :
    transform_local_to_global shuffle timeSeed1 pcLocal localPose
        maxLocalPoints seed =
      transform_local_to_global shuffle timeSeed2 pcLocal localPose
        maxLocalPoints seed := by
  unfold transform_local_to_global
  simp [hseed]

/-- Witness for C9 at a concrete subsampling run with seed 5 and two
different time values. -/
theorem transform_local_to_global_deterministic_witness :
    transform_local_to_global shuffleId 11 [((0 : ℚ), 0, 0), ((1 : ℚ), 1, 1)]
        id 1 5 =
      transform_local_to_global shuffleId 22 [((0 : ℚ), 0, 0), ((1 : ℚ), 1, 1)]
        id 1 5 :=
  transform_local_to_global_deterministic shuffleId 11 22
    [((0 : ℚ), 0, 0), ((1 : ℚ), 1, 1)] id 1 5 (by decide)

/-- Arithmetic helper: with stride q = N / K (and remainder r), the
number of decimated probes ceil(N / q) is at most 2K - 1. -/
theorem floor_stride_probe_bound (N K q r : Nat) (hk : 0 < K) (hq1 : 1 ≤ q)
    (hmain : K * q + r = N) (hr : r < K) :
    (N + q - 1) / q ≤ 2 * K - 1 := by
  obtain ⟨a, rfl⟩ : ∃ a, K = a + 1 := ⟨K - 1, by omega⟩
  obtain ⟨b, rfl⟩ : ∃ b, q = b + 1 := ⟨q - 1, by omega⟩
  have hlt : (N + (b + 1) - 1) / (b + 1) < 2 * (a + 1) := by
    rw [Nat.div_lt_iff_lt_mul (by omega : 0 < b + 1)]
    have hexp2 : (a + 1) * (b + 1) = a * b + a + b + 1 := by ring
    rw [hexp2] at hmain
    have hexp : 2 * (a + 1) * (b + 1) = 2 * (a * b) + 2 * a + 2 * b + 2 := by
      ring
    rw [hexp]
    revert hmain
    generalize a * b = m
    intro hmain
    omega
  omega

/-- Lookup helper: prepareMatchingParams maps the reserved plane-centroid
layer name, wherever it occurs among the layers of the first cloud, to
the plane-specific parameters. -/
theorem prepareMatchingParams_lookup_plane (dflt : TMatchingParams)
    (p : Parameters) :
    ∀ (layers : List (String × Nat)) (c : Nat) (s : String),
      PT_LAYER_PLANE_CENTROIDS ∈ layers.map Prod.fst →
      mapLookup (prepareMatchingParams dflt p layers c s).1
          PT_LAYER_PLANE_CENTROIDS = some (planeLayerParams dflt p) := by
  intro layers
  induction layers with
  | nil => intro c s h; exact absurd h (by simp)
  | cons head rest ih =>
    intro c s h
    obtain ⟨name, size⟩ := head
    by_cases hn : name = PT_LAYER_PLANE_CENTROIDS
    · subst hn
      simp [prepareMatchingParams, mapLookup]
    · have hmem : PT_LAYER_PLANE_CENTROIDS ∈ rest.map Prod.fst := by
        simp only [List.map_cons, List.mem_cons] at h
        rcases h with h1 | h2
        · exact absurd h1.symm hn
        · exact h2
      have hne2 : ¬(PT_LAYER_PLANE_CENTROIDS = name) := fun hh => hn hh.symm
      by_cases hw : (mapLookup p.weight_pt2pt_layers name).isNone = true
      · simp only [prepareMatchingParams, if_neg hn, if_pos hw]
        rw [mapLookup, if_neg hne2]
        exact ih _ _ hmem
      · simp only [prepareMatchingParams, if_neg hn, if_neg hw]
        rw [mapLookup, if_neg hne2]
        exact ih _ _ hmem

/-- Claim C5 (amended): for an ordinary point layer of size N included
in the weight configuration, with 0 < maxPairsPerLayer = K < N, the
prepared decimation stride equals the floor max(1, N / K) = N / K (not
ceil(N / K)); under the stride decimation model the number of probed
candidates is bounded by 2K - 1 (it can exceed K, see the
counterexample). -/
theorem decimation_stride_floor (dflt : TMatchingParams) (p : Parameters)
    (name : String) (N : Nat) (rest : List (String × Nat)) (c : Nat)
    (s : String) (hplane : name ≠ PT_LAYER_PLANE_CENTROIDS)
    (hw : (mapLookup p.weight_pt2pt_layers name).isSome = true)
    (hk : 0 < p.maxPairsPerLayer) (hkn : p.maxPairsPerLayer < N) :
    mapLookup (prepareMatchingParams dflt p ((name, N) :: rest) c s).1 name
      = some (pointLayerParams p N) ∧
    (pointLayerParams p N).decimation_other_map_points
      = N / p.maxPairsPerLayer ∧
    probeCount N (pointLayerParams p N).decimation_other_map_points
      ≤ 2 * p.maxPairsPerLayer - 1 := by
  have hq1 : 1 ≤ N / p.maxPairsPerLayer :=
    (Nat.one_le_div_iff hk).mpr (le_of_lt hkn)
  have hstride : (pointLayerParams p N).decimation_other_map_points
      = N / p.maxPairsPerLayer := by
    simp only [pointLayerParams]
    exact Nat.max_eq_right hq1
  refine ⟨?_, hstride, ?_⟩
  · have hwn : ¬((mapLookup p.weight_pt2pt_layers name).isNone = true) := by
      intro hnone
      rw [Option.isNone_iff_eq_none] at hnone
      rw [hnone] at hw
      exact absurd hw (by simp)
    simp only [prepareMatchingParams, if_neg hplane, if_neg hwn]
    rw [mapLookup, if_pos rfl]
  · rw [hstride]
    exact floor_stride_probe_bound N p.maxPairsPerLayer
      (N / p.maxPairsPerLayer) (N % p.maxPairsPerLayer) hk hq1
      (Nat.div_add_mod N p.maxPairsPerLayer) (Nat.mod_lt _ hk)

/-- Witness for the amended C5 at N = 5, K = 2. -/
theorem decimation_stride_floor_witness :
    mapLookup (prepareMatchingParams mpDefaultW pC5 [(layerA, 5)] 0
        emptyName).1 layerA = some (pointLayerParams pC5 5) ∧
    (pointLayerParams pC5 5).decimation_other_map_points
      = 5 / pC5.maxPairsPerLayer ∧
    probeCount 5 (pointLayerParams pC5 5).decimation_other_map_points
      ≤ 2 * pC5.maxPairsPerLayer - 1 :=
  decimation_stride_floor mpDefaultW pC5 layerA 5 [] 0 emptyName (by decide)
    (by decide) (by decide) (by decide)

/-- Counterexample to C5 as stated: layer of N = 5 points, K =
maxPairsPerLayer = 2.  The computed stride is 2 = max(1, floor(5/2)),
while ceil(5/2) = 3, and the number of probed candidates under stride 2
is 3 > K. -/
theorem decimation_stride_counterexample :
    mapLookup (prepareMatchingParams mpDefaultW pC5 [(layerA, 5)] 0
        emptyName).1 layerA = some (pointLayerParams pC5 5) ∧
    (pointLayerParams pC5 5).decimation_other_map_points = 2 ∧
    ceilDiv 5 2 = 3 ∧
    (pointLayerParams pC5 5).decimation_other_map_points ≠ ceilDiv 5 2 ∧
    probeCount 5 (pointLayerParams pC5 5).decimation_other_map_points = 3 ∧
    ¬(probeCount 5 (pointLayerParams pC5 5).decimation_other_map_points
        ≤ 2) := by
  decide

/-- Claim C8: prepareMatchingParams (run once per align call, before the
loop — see align_full) assigns the reserved plane-centroid layer a
distance threshold of thresholdDist plus the fixed margin 2, a zero
angular threshold, keep-only-closest, and decimation stride 1. -/
theorem prepareMatchingParams_plane_layer_values (dflt : TMatchingParams)
    (p : Parameters) (layers : List (String × Nat)) (c : Nat) (s : String)
    (hmem : PT_LAYER_PLANE_CENTROIDS ∈ layers.map Prod.fst) :
    mapLookup (prepareMatchingParams dflt p layers c s).1
        PT_LAYER_PLANE_CENTROIDS = some (planeLayerParams dflt p) ∧
    (planeLayerParams dflt p).maxDistForCorrespondence
      = p.thresholdDist + 2 ∧
    (planeLayerParams dflt p).maxAngularDistForCorrespondence = 0 ∧
    (planeLayerParams dflt p).onlyKeepTheClosest = true ∧
    (planeLayerParams dflt p).decimation_other_map_points = 1 :=
  ⟨prepareMatchingParams_lookup_plane dflt p layers c s hmem, rfl, rfl, rfl,
    rfl⟩

/-- Witness for C8 on a cloud whose only layer is the plane-centroid
layer. -/
theorem prepareMatchingParams_plane_layer_values_witness :
    mapLookup (prepareMatchingParams mpDefaultW pW
        [(PT_LAYER_PLANE_CENTROIDS, 4)] 0 emptyName).1
      PT_LAYER_PLANE_CENTROIDS = some (planeLayerParams mpDefaultW pW) :=
  (prepareMatchingParams_plane_layer_values mpDefaultW pW
    [(PT_LAYER_PLANE_CENTROIDS, 4)] 0 emptyName (by decide)).1

/-- The point-count loop can fail only with a missingLayer error, never
with layerCountMismatch. -/
theorem countIncludedPoints_ne_layerCount (weights : List (String × ℚ))
    (pc2layers : List (String × Nat)) :
    ∀ layers, countIncludedPoints weights pc2layers layers ≠
      Except.error FatalError.layerCountMismatch := by
  intro layers
  induction layers with
  | nil => intro h; exact absurd h (by simp [countIncludedPoints])
  | cons head rest ih =>
    obtain ⟨name, size⟩ := head
    intro h
    rw [countIncludedPoints] at h
    by_cases hw : (mapLookup weights name).isNone = true
    · rw [if_pos hw] at h
      exact ih h
    · rw [if_neg hw] at h
      cases hlk : mapLookup pc2layers name with
      | none =>
        rw [hlk] at h
        simp at h
      | some size2 =>
        rw [hlk] at h
        cases hrec : countIncludedPoints weights pc2layers rest with
        | error e =>
          rw [hrec] at h
          simp at h
          exact ih (by rw [hrec, h])
        | ok pair =>
          obtain ⟨c1, c2⟩ := pair
          rw [hrec] at h
          simp at h

/-- Claim C6 (amended): align aborts with the layer-count assert exactly
when the two clouds have different numbers of point layers; equality of
the layer-name sets themselves is not what is checked (see the
counterexample: equal counts with disjoint name sets can produce a
Results value). -/
theorem align_layer_count_check {Pose : Type} (dflt : TMatchingParams)
    (impl : List (String × TMatchingParams) → String → Pose →
      ICP_iteration_result Pose)
    (logNorms : Pose → Pose → ℚ × ℚ)
    (ratioF : List (String × TMatchingParams) → String → Pose → ℚ)
    (p : Parameters) (pcs1 pcs2 : pointcloud_t) (init_guess : Pose) :
    align_full dflt impl logNorms ratioF p pcs1 pcs2 init_guess
        = Except.error FatalError.layerCountMismatch ↔
      pcs1.point_layers.length ≠ pcs2.point_layers.length := by
  constructor
  · intro h
    rw [align_full] at h
    split at h
    · rename_i hcond
      exact hcond
    · split at h
      · simp at h
      · split at h
        · rename_i e heq
          injection h with h2e
          exact absurd (heq.trans (by rw [h2e]))
            (countIncludedPoints_ne_layerCount _ _ _)
        · split at h
          · simp at h
          · split at h
            · simp at h
            · simp at h
  · intro h
    rw [align_full, if_pos h]

/-- Counterexample to C6 as stated: two clouds with the same number of
layers but disjoint layer-name sets pass every precondition check (with
an empty weight configuration and non-empty plane sets) and align
produces a Results value instead of failing. -/
theorem align_layer_name_mismatch_counterexample :
    (layerA ∈ pcA.point_layers.map Prod.fst ∧
      layerA ∉ pcB.point_layers.map Prod.fst) ∧
    align_full mpDefaultW implC6 logNormsW0 ratioC6 pW pcA pcB 0
      = Except.ok ⟨0, some IterTermReason.Stalled, 0, 0, 1⟩ := by
  exact ⟨by decide, rfl⟩

/-- The matcher loop only appends to paired_points: the final list is
the initial one followed by the per-layer contributions in processing
order. -/
theorem matchGo_paired_points {Pose : Type}
    (implMatchOneLayer : String → Pose → List (Nat × Nat))
    (weights : List (String × ℚ)) (pcLocal : pointcloud_t) (localPose : Pose) :
    ∀ (layers : List (String × Nat)) (out : Pairings),
      (matchGo implMatchOneLayer weights pcLocal localPose layers
          out).paired_points
        = out.paired_points ++
            paired_points_spec implMatchOneLayer weights pcLocal localPose
              layers := by
  intro layers
  induction layers with
  | nil => intro out; simp [matchGo, paired_points_spec]
  | cons head rest ih =>
    intro out
    obtain ⟨name, sz⟩ := head
    by_cases h1 : weights ≠ [] ∧ (mapLookup weights name).isNone = true
    · simp only [matchGo, paired_points_spec, if_pos h1]
      exact ih out
    · cases hlk : mapLookup pcLocal.point_layers name with
      | none =>
        simp only [matchGo, paired_points_spec, if_neg h1, hlk]
        exact ih out
      | some v =>
        simp only [matchGo, paired_points_spec, if_neg h1, hlk]
        by_cases h2 : weights ≠ [] ∧
            (out.paired_points ++ implMatchOneLayer name localPose).length
              ≠ out.paired_points.length
        · rw [if_pos h2, ih]
          simp [List.append_assoc]
        · rw [if_neg h2, ih]
          simp [List.append_assoc]

/-- The weight records produced by the matcher loop are the initial ones
followed by exactly the records described by point_weights_spec. -/
theorem matchGo_point_weights {Pose : Type}
    (implMatchOneLayer : String → Pose → List (Nat × Nat))
    (weights : List (String × ℚ)) (pcLocal : pointcloud_t) (localPose : Pose) :
    ∀ (layers : List (String × Nat)) (out : Pairings),
      (matchGo implMatchOneLayer weights pcLocal localPose layers
          out).point_weights
        = out.point_weights ++
            point_weights_spec implMatchOneLayer weights pcLocal localPose
              layers := by
  intro layers
  induction layers with
  | nil => intro out; simp [matchGo, point_weights_spec]
  | cons head rest ih =>
    intro out
    obtain ⟨name, sz⟩ := head
    by_cases h1 : weights ≠ [] ∧ (mapLookup weights name).isNone = true
    · simp only [matchGo, point_weights_spec, if_pos h1]
      exact ih out
    · cases hlk : mapLookup pcLocal.point_layers name with
      | none =>
        simp only [matchGo, point_weights_spec, if_neg h1, hlk]
        exact ih out
      | some v =>
        simp only [matchGo, point_weights_spec, if_neg h1, hlk]
        have hcnt : (out.paired_points ++ implMatchOneLayer name
            localPose).length - out.paired_points.length
            = (implMatchOneLayer name localPose).length := by
          rw [List.length_append]
          omega
        have hiff : ((out.paired_points ++ implMatchOneLayer name
            localPose).length ≠ out.paired_points.length)
            ↔ (implMatchOneLayer name localPose).length ≠ 0 := by
          rw [List.length_append]
          omega
        by_cases h2 : weights ≠ [] ∧
            (implMatchOneLayer name localPose).length ≠ 0
        · rw [if_pos ⟨h2.1, hiff.mpr h2.2⟩, if_pos h2, ih]
          rw [hcnt]
          simp [List.append_assoc]
        · have h2n : ¬(weights ≠ [] ∧
              (out.paired_points ++ implMatchOneLayer name localPose).length
                ≠ out.paired_points.length) := by
            intro hcontra
            exact h2 ⟨hcontra.1, hiff.mp hcontra.2⟩
          rw [if_neg h2n, if_neg h2, ih]
          simp

/-- With an empty weight configuration the spec-side record list is
empty for every layer sequence. -/
theorem point_weights_spec_nil_weights {Pose : Type}
    (implMatchOneLayer : String → Pose → List (Nat × Nat))
    (pcLocal : pointcloud_t) (localPose : Pose) :
    ∀ layers, point_weights_spec implMatchOneLayer [] pcLocal localPose layers
      = [] := by
  intro layers
  induction layers with
  | nil => rfl
  | cons head rest ih =>
    obtain ⟨name, sz⟩ := head
    have hno : ¬(([] : List (String × ℚ)) ≠ [] ∧
        (mapLookup ([] : List (String × ℚ)) name).isNone = true) := by
      intro h
      exact h.1 rfl
    simp only [point_weights_spec, if_neg hno]
    cases hlk : mapLookup pcLocal.point_layers name with
    | none => simp only [hlk]; exact ih
    | some v =>
      simp only [hlk]
      rw [if_neg (by intro h; exact h.1 rfl)]
      simp [ih]

/-- With a non-empty weight configuration, the spec-side record counts
sum to the number of pairings contributed across all layers. -/
theorem point_weights_spec_sum {Pose : Type}
    (implMatchOneLayer : String → Pose → List (Nat × Nat))
    (weights : List (String × ℚ)) (pcLocal : pointcloud_t) (localPose : Pose)
    (hw : weights ≠ []) :
    ∀ layers,
      ((point_weights_spec implMatchOneLayer weights pcLocal localPose
          layers).map Prod.fst).sum
        = (paired_points_spec implMatchOneLayer weights pcLocal localPose
            layers).length := by
  intro layers
  induction layers with
  | nil => simp [point_weights_spec, paired_points_spec]
  | cons head rest ih =>
    obtain ⟨name, sz⟩ := head
    by_cases h1 : weights ≠ [] ∧ (mapLookup weights name).isNone = true
    · simp only [point_weights_spec, paired_points_spec, if_pos h1]
      exact ih
    · cases hlk : mapLookup pcLocal.point_layers name with
      | none =>
        simp only [point_weights_spec, paired_points_spec, if_neg h1, hlk]
        exact ih
      | some v =>
        simp only [point_weights_spec, paired_points_spec, if_neg h1, hlk]
        by_cases h2 : weights ≠ [] ∧
            (implMatchOneLayer name localPose).length ≠ 0
        · rw [if_pos h2]
          simp [ih]
        · rw [if_neg h2]
          have hlen : (implMatchOneLayer name localPose).length = 0 := by
            by_contra hne
            exact h2 ⟨hw, hne⟩
          have hnil : implMatchOneLayer name localPose = [] :=
            List.length_eq_zero.mp hlen
          simp [hnil, ih]

/-- Claim C7 (amended): the weight records of a match call are exactly
those described by the claim (one record per processed layer that
contributed at least one pairing, counts exact and non-cumulative, in
layer-processing order, only under a non-empty weight configuration);
when the weight configuration is non-empty the counts sum to the total
number of point-point pairings contributed, and when it is empty no
record is appended at all (even though pairings may be contributed, so
the unconditional sum property of the original claim fails — see the
counterexample). -/
theorem matchPairings_weight_records {Pose : Type}
    (implMatchOneLayer : String → Pose → List (Nat × Nat))
    (weights : List (String × ℚ)) (pcGlobal pcLocal : pointcloud_t)
    (localPose : Pose) :
    (matchPairings implMatchOneLayer weights pcGlobal pcLocal
        localPose).point_weights
      = point_weights_spec implMatchOneLayer weights pcLocal localPose
          pcGlobal.point_layers ∧
    (weights ≠ [] →
      (((matchPairings implMatchOneLayer weights pcGlobal pcLocal
          localPose).point_weights).map Prod.fst).sum
        = (matchPairings implMatchOneLayer weights pcGlobal pcLocal
            localPose).paired_points.length) ∧
    (weights = [] →
      (matchPairings implMatchOneLayer weights pcGlobal pcLocal
          localPose).point_weights = []) := by
  have hpw := matchGo_point_weights implMatchOneLayer weights pcLocal localPose
    pcGlobal.point_layers ⟨[], 0, []⟩
  have hpp := matchGo_paired_points implMatchOneLayer weights pcLocal localPose
    pcGlobal.point_layers ⟨[], 0, []⟩
  have h1 : (matchPairings implMatchOneLayer weights pcGlobal pcLocal
      localPose).point_weights
      = point_weights_spec implMatchOneLayer weights pcLocal localPose
          pcGlobal.point_layers := by
    rw [matchPairings, hpw]
    simp
  refine ⟨h1, ?_, ?_⟩
  · intro hw
    rw [h1, point_weights_spec_sum implMatchOneLayer weights pcLocal localPose
      hw pcGlobal.point_layers]
    rw [matchPairings, hpp]
    simp
  · intro hw0
    rw [h1, hw0]
    exact point_weights_spec_nil_weights implMatchOneLayer pcLocal localPose
      pcGlobal.point_layers

/-- Witness for C7 with one included layer contributing one pairing. -/
theorem matchPairings_weight_records_witness :
    (((matchPairings implOnePair [(layerA, 2)] pcG pcG ()).point_weights).map
        Prod.fst).sum
      = (matchPairings implOnePair [(layerA, 2)] pcG pcG
          ()).paired_points.length :=
  (matchPairings_weight_records implOnePair [(layerA, 2)] pcG pcG ()).2.1
    (by decide)

/-- Counterexample to C7 as stated: with an empty weight configuration
the layer still contributes one pairing, but no weight record exists, so
the sum of record counts (0) differs from the pairing total (1). -/
theorem matchPairings_sum_counterexample :
    (matchPairings implOnePair [] pcG pcG ()).paired_points.length = 1 ∧
    (((matchPairings implOnePair [] pcG pcG ()).point_weights).map
        Prod.fst).sum = 0 := by
  exact ⟨rfl, rfl⟩

end Mp2pIcp
